import Mathlib

/-!
Verification of the openclaw keyvault scheduler core: a shallow embedding in
Lean 4 of the model registry, task classifier, rate tracker, credential store
queries, vault crypto framing, the scheduler entry points
(`PoolManager::generate`, `execute_with_failover`) and the discovery scan's
status update, together with theorems settling the specification claims.

Machine integers: the Rust code uses `u16`/`u32`/`u64` counters that never
overflow on the values involved (list lengths, token counts); they are
embedded as `Nat`.  Time instants are embedded as seconds (`Nat`).
-/

namespace OpenClaw

-- ── String helpers (Rust `str::contains`, `split_whitespace`, `matches`) ──

/-- Scan for `pat` starting at each suffix of the text. -/
def containsSubAux (pat : List Char) : List Char → Bool
  | [] => pat.isEmpty
  | c :: rest => pat.isPrefixOf (c :: rest) || containsSubAux pat rest

/-- Rust `s.contains(pat)`: `pat` occurs as a contiguous substring of `s`. -/
def containsSub (s pat : String) : Bool :=
  containsSubAux pat.toList s.toList

/-- Rust `str::to_lowercase`, restricted to ASCII case mapping.  (Rust's
lowercasing is full Unicode; every pattern the classifier matches against is
ASCII, where the two agree.) -/
def lowercase (s : String) : String :=
  s.map Char.toLower

/-- Rust `s.split_whitespace().count()`: number of maximal runs of
non-whitespace characters. -/
def wordCount (s : String) : Nat :=
  ((s.split Char.isWhitespace).filter (fun w => !w.isEmpty)).length

/-- Rust `s.matches(pat).count()`: number of non-overlapping occurrences of a
(non-empty) pattern, scanning left to right. -/
def countOccs (pat : List Char) : List Char → Nat
  | [] => 0
  | c :: rest =>
    if pat.isPrefixOf (c :: rest) ∧ pat.length ≠ 0 then
      countOccs pat (rest.drop (pat.length - 1)) + 1
    else
      countOccs pat rest
termination_by l => l.length
decreasing_by
  all_goals simp [List.length_drop]
  omega

-- ── Model registry (src/keyvault/src/pool/registry.rs) ──────────────────

/-- `TaskComplexity` from registry.rs: totally ordered by the discriminant
values `Trivial = 0 < Simple = 1 < Medium = 2 < Complex = 3 < Expert = 4`. -/
inductive TaskComplexity
  | trivial
  | simple
  | medium
  | complex
  | expert
deriving DecidableEq, Repr

/-- Rust discriminant of the `TaskComplexity` enum (basis of `PartialOrd`). -/
def TaskComplexity.toNat : TaskComplexity → Nat
  | .trivial => 0
  | .simple => 1
  | .medium => 2
  | .complex => 3
  | .expert => 4

instance : LE TaskComplexity := ⟨fun a b => a.toNat ≤ b.toNat⟩
instance : LT TaskComplexity := ⟨fun a b => a.toNat < b.toNat⟩

instance (a b : TaskComplexity) : Decidable (a ≤ b) :=
  inferInstanceAs (Decidable (a.toNat ≤ b.toNat))

instance (a b : TaskComplexity) : Decidable (a < b) :=
  inferInstanceAs (Decidable (a.toNat < b.toNat))

/-- `ModelSpec` from registry.rs (fields not consulted by any claim —
`tier`, `supports_thinking`, `display_name` — are kept for completeness
except the two enums that never influence control flow). -/
structure ModelSpec where
  id : String
  provider : String
  code_quality : Nat
  input_token_limit : Nat
  output_token_limit : Nat
  free_rpm : Nat
  free_rpd : Nat
  free_tpm : Nat
  min_complexity : TaskComplexity
  deprecated : Bool
deriving DecidableEq, Repr

/-- `GOOGLE_MODELS[0]`: gemini-3-pro-preview. -/
def m3pro : ModelSpec :=
  { id := "gemini-3-pro-preview", provider := "google", code_quality := 5,
    input_token_limit := 1048576, output_token_limit := 65536,
    free_rpm := 10, free_rpd := 100, free_tpm := 250000,
    min_complexity := .complex, deprecated := false }

/-- `GOOGLE_MODELS[1]`: gemini-3-flash-preview. -/
def m3flash : ModelSpec :=
  { id := "gemini-3-flash-preview", provider := "google", code_quality := 4,
    input_token_limit := 1048576, output_token_limit := 65536,
    free_rpm := 10, free_rpd := 250, free_tpm := 250000,
    min_complexity := .medium, deprecated := false }

/-- `GOOGLE_MODELS[2]`: gemini-2.5-pro. -/
def m25pro : ModelSpec :=
  { id := "gemini-2.5-pro", provider := "google", code_quality := 4,
    input_token_limit := 1048576, output_token_limit := 65536,
    free_rpm := 5, free_rpd := 100, free_tpm := 250000,
    min_complexity := .complex, deprecated := false }

/-- `GOOGLE_MODELS[3]`: gemini-2.5-flash. -/
def m25flash : ModelSpec :=
  { id := "gemini-2.5-flash", provider := "google", code_quality := 3,
    input_token_limit := 1048576, output_token_limit := 65536,
    free_rpm := 10, free_rpd := 250, free_tpm := 250000,
    min_complexity := .simple, deprecated := false }

/-- `GOOGLE_MODELS[4]`: gemini-2.5-flash-lite. -/
def m25flashLite : ModelSpec :=
  { id := "gemini-2.5-flash-lite", provider := "google", code_quality := 2,
    input_token_limit := 1048576, output_token_limit := 65536,
    free_rpm := 15, free_rpd := 1000, free_tpm := 250000,
    min_complexity := .trivial, deprecated := false }

/-- `GOOGLE_MODELS[5]`: gemini-2.0-flash (deprecated). -/
def m20flash : ModelSpec :=
  { id := "gemini-2.0-flash", provider := "google", code_quality := 2,
    input_token_limit := 1048576, output_token_limit := 8192,
    free_rpm := 15, free_rpd := 1500, free_tpm := 250000,
    min_complexity := .trivial, deprecated := true }

/-- The static registry `GOOGLE_MODELS`. -/
def GOOGLE_MODELS : List ModelSpec :=
  [m3pro, m3flash, m25pro, m25flash, m25flashLite, m20flash]

/-- `registry::get_model`. -/
def get_model (id : String) : Option ModelSpec :=
  GOOGLE_MODELS.find? (fun m => m.id == id)

/-- Stable insertion of `x` into a list sorted by a three-way comparator
(models the behaviour of Rust's stable `slice::sort_by`). -/
def insertCmp (cmp : ModelSpec → ModelSpec → Ordering) (x : ModelSpec) :
    List ModelSpec → List ModelSpec
  | [] => [x]
  | y :: t => if cmp x y = .gt then y :: insertCmp cmp x t else x :: y :: t

/-- Stable sort by a three-way comparator, as Rust's `sort_by`. -/
def sortByCmp (cmp : ModelSpec → ModelSpec → Ordering) :
    List ModelSpec → List ModelSpec
  | [] => []
  | x :: t => insertCmp cmp x (sortByCmp cmp t)

/-- The comparator of `cheapest_for_complexity` / `models_for_complexity`:
highest free RPD first, ties by lowest quality. -/
def cmpCheapest (a b : ModelSpec) : Ordering :=
  (compare b.free_rpd a.free_rpd).then (compare a.code_quality b.code_quality)

/-- `registry::cheapest_for_complexity`. -/
def cheapest_for_complexity (c : TaskComplexity) : Option ModelSpec :=
  (sortByCmp cmpCheapest
    (GOOGLE_MODELS.filter
      (fun m => !m.deprecated && decide (m.min_complexity ≤ c)))).head?

/-- `registry::best_for_complexity`: highest quality first. -/
def best_for_complexity (c : TaskComplexity) : Option ModelSpec :=
  (sortByCmp (fun a b => compare b.code_quality a.code_quality)
    (GOOGLE_MODELS.filter
      (fun m => !m.deprecated && decide (m.min_complexity ≤ c)))).head?

-- ── Classifier (src/keyvault-package/src/pool/classifier.rs) ────────────

def expert_patterns : List String :=
  ["cross-crate", "cross crate", "architecture",
   "system design", "redesign", "refactor entire",
   "restructure", "migrate from", "rewrite the",
   "design pattern", "dependency injection"]

def trivial_patterns : List String :=
  ["rename", "import", "use statement",
   "fix typo", "remove unused", "delete line",
   "add comma", "fix syntax", "one-line",
   "single line", "change name"]

def simple_patterns : List String :=
  ["test", "struct", "enum", "boilerplate",
   "scaffold", "template", "skeleton",
   "add field", "add method", "derive",
   "doc comment", "documentation"]

def complex_patterns : List String :=
  ["algorithm", "security", "cryptograph", "encryption",
   "concurrent", "async", "parallel", "thread-safe",
   "thread safe", "race condition", "deadlock",
   "state machine", "parser", "lexer", "ast",
   "protocol", "serialization", "deserialization",
   "zero-copy", "unsafe", "lifetime",
   "trait object", "dynamic dispatch"]

def file_extensions : List String :=
  [".rs ", ".ts ", ".js ", ".py ", ".go ", ".toml", ".json", ".yaml"]

def medium_patterns : List String :=
  ["implement", "function", "method", "refactor",
   "handler", "endpoint", "api", "route",
   "module", "component", "service",
   "error handling", "validation", "convert"]

/-- `classifier::classify`, with the source's control flow: expert override,
short-prompt trivial/simple fast path, complex signals, file-reference count,
medium signals, long-prompt simple/trivial, then the word-count fallback. -/
def classify (prompt : String) : TaskComplexity :=
  let lower := lowercase prompt
  let word_count := wordCount prompt
  if expert_patterns.any (fun p => containsSub lower p) then .expert
  else if word_count ≤ 15 ∧ trivial_patterns.any (fun p => containsSub lower p) then .trivial
  else if word_count ≤ 15 ∧ simple_patterns.any (fun p => containsSub lower p) then .simple
  else if complex_patterns.any (fun p => containsSub lower p) then .complex
  else
    let file_refs := (file_extensions.map
      (fun ext => countOccs ext.toList lower.toList)).sum
    if file_refs ≥ 4 then .complex
    else
      let medium_hits :=
        (medium_patterns.filter (fun p => containsSub lower p)).length
      if medium_hits ≥ 2 ∨ file_refs ≥ 2 then .medium
      else if simple_patterns.any (fun p => containsSub lower p) then .simple
      else if trivial_patterns.any (fun p => containsSub lower p) then .trivial
      else if word_count ≤ 20 then .simple
      else if word_count ≤ 80 then .medium
      else .complex

/-- `classifier::select_model`: trivial/simple route to the cheapest capable
model (falling back to `GOOGLE_MODELS[4]`), medium to 3-flash-preview with
2.5-flash secondary (falling back to `GOOGLE_MODELS[3]`), complex to
3-pro-preview with 2.5-pro secondary (falling back to `GOOGLE_MODELS[0]`),
expert to the best capable model. -/
def select_model (c : TaskComplexity) : ModelSpec :=
  match c with
  | .trivial | .simple => (cheapest_for_complexity c).getD m25flashLite
  | .medium =>
    ((get_model "gemini-3-flash-preview").orElse
      (fun _ => get_model "gemini-2.5-flash")).getD m25flash
  | .complex =>
    ((get_model "gemini-3-pro-preview").orElse
      (fun _ => get_model "gemini-2.5-pro")).getD m3pro
  | .expert => (best_for_complexity c).getD m3pro

/-- The fixed fallback cascade of `classifier::fallback_model`. -/
def cascade : List String :=
  ["gemini-2.5-flash-lite", "gemini-2.5-flash", "gemini-3-flash-preview",
   "gemini-2.5-pro", "gemini-3-pro-preview"]

/-- The loop body of `fallback_model`: first cascade entry that is in the
registry and not deprecated. -/
def firstNonDeprecated : List String → Option ModelSpec
  | [] => none
  | id :: rest =>
    match get_model id with
    | some m => if !m.deprecated then some m else firstNonDeprecated rest
    | none => firstNonDeprecated rest

/-- `classifier::fallback_model`: the next non-deprecated registry entry
strictly above the current model in the cascade. -/
def fallback_model (current_model_id : String) : Option ModelSpec :=
  match cascade.findIdx? (fun id => id == current_model_id) with
  | none => none
  | some pos => firstNonDeprecated (cascade.drop (pos + 1))

-- ── Rate tracker (src/keyvault-package/src/pool/rate_tracker.rs) ────────

/-- `RateWindow`: sliding-window counters for one (key, model) pair.
Instants are seconds (the Rust code uses `Instant`); the calendar day is the
UNIX-day integer `seconds_since_epoch / 86400`. -/
structure RateWindow where
  minute_window : List Nat
  daily_count : Nat
  daily_reset_day : Nat
deriving DecidableEq, Repr

/-- `RateWindow::new`, created at calendar day `day`. -/
def RateWindow.new (day : Nat) : RateWindow :=
  { minute_window := [], daily_count := 0, daily_reset_day := day }

/-- `RateWindow::prune_minute_window`: pop timestamps strictly older than
`now - 60` from the front.  (`Nat` subtraction truncates at zero, matching a
clock that cannot precede its origin.) -/
def RateWindow.prune (now : Nat) (w : RateWindow) : RateWindow :=
  { w with minute_window := w.minute_window.dropWhile (fun t => t < now - 60) }

/-- `RateWindow::record` at instant `now` on calendar day `day`: push the
instant, prune, roll the daily counter over if the day changed, increment. -/
def RateWindow.record (now day : Nat) (w : RateWindow) : RateWindow :=
  let w1 := RateWindow.prune now { w with minute_window := w.minute_window ++ [now] }
  let w2 := if day ≠ w1.daily_reset_day then
      { w1 with daily_count := 0, daily_reset_day := day }
    else w1
  { w2 with daily_count := w2.daily_count + 1 }

/-- `RateWindow::current_rpm`: size of the pruned minute window. -/
def RateWindow.current_rpm (now : Nat) (w : RateWindow) : Nat :=
  (RateWindow.prune now w).minute_window.length

/-- `RateWindow::current_rpd`: the daily counter, zero if the day rolled. -/
def RateWindow.current_rpd (day : Nat) (w : RateWindow) : Nat :=
  if day ≠ w.daily_reset_day then 0 else w.daily_count

/-- The tracker's map keyed by (key id, model id); an association list stands
in for the `HashMap` (claims consult it only through lookups). -/
abbrev RateTracker : Type := List ((String × String) × RateWindow)

/-- Update-or-insert for the association map (`HashMap::entry().or_insert`). -/
def updateAssoc (k : String × String) (f : Option RateWindow → RateWindow) :
    RateTracker → RateTracker
  | [] => [(k, f none)]
  | (k', w) :: t =>
    if k' == k then (k', f (some w)) :: t else (k', w) :: updateAssoc k f t

/-- `RateTracker::record_request` at instant `now`, calendar day `day`. -/
def record_request (t : RateTracker) (key_id model_id : String)
    (now day : Nat) : RateTracker :=
  updateAssoc (key_id, model_id)
    (fun w => RateWindow.record now day (w.getD (RateWindow.new day))) t

/-- `RateTracker::check_capacity`: `(can_proceed, current_rpm, current_rpd)`;
a key with no recorded history returns `(true, 0, 0)`. -/
def check_capacity (t : RateTracker) (key_id model_id : String)
    (max_rpm max_rpd now day : Nat) : Bool × Nat × Nat :=
  match List.lookup (key_id, model_id) t with
  | none => (true, 0, 0)
  | some w =>
    let rpm := w.current_rpm now
    let rpd := w.current_rpd day
    (decide (rpm < max_rpm) && decide (rpd < max_rpd), rpm, rpd)

/-- The fold of `RateTracker::least_loaded_key`: keep the best
`(key, rpm)` seen so far, replacing it only on a strictly smaller rpm. -/
def llGo (t : RateTracker) (model_id : String) (max_rpm max_rpd now day : Nat)
    (best : Option (String × Nat)) : List String → Option (String × Nat)
  | [] => best
  | k :: rest =>
    let r := check_capacity t k model_id max_rpm max_rpd now day
    if !r.1 then llGo t model_id max_rpm max_rpd now day best rest
    else
      match best with
      | none => llGo t model_id max_rpm max_rpd now day (some (k, r.2.1)) rest
      | some (kb, best_rpm) =>
        if r.2.1 < best_rpm then
          llGo t model_id max_rpm max_rpd now day (some (k, r.2.1)) rest
        else
          llGo t model_id max_rpm max_rpd now day (some (kb, best_rpm)) rest

/-- `RateTracker::least_loaded_key`. -/
def least_loaded_key (t : RateTracker) (keys : List String) (model_id : String)
    (max_rpm max_rpd now day : Nat) : Option String :=
  (llGo t model_id max_rpm max_rpd now day none keys).map Prod.fst

-- ── Vault crypto framing (src/keyvault-package/src/vault/mod.rs) ────────

def SALT_LEN : Nat := 32
def NONCE_LEN : Nat := 12

/-- Modelled from the spec: the AEAD cipher (AES-256-GCM in the source) is an
external crate; §4.A only requires an authenticated cipher with a 128-bit
(16-byte) tag.  `enc key nonce plaintext` yields the ciphertext-with-tag,
`dec` verifies and decrypts. -/
structure AEAD where
  enc : List Nat → List Nat → List Nat → List Nat
  dec : List Nat → List Nat → List Nat → Option (List Nat)

/-- `vault::encrypt` over bytes: derive the key from passphrase and salt
(`derive_key` wraps the external Argon2id crate, modelled from the spec as an
arbitrary deterministic KDF `kdf`), encrypt, return `salt ‖ nonce ‖ ct`. -/
def encrypt (A : AEAD) (kdf : List Nat → List Nat → List Nat)
    (salt nonce plaintext passphrase : List Nat) : List Nat :=
  let key := kdf passphrase salt
  salt ++ nonce ++ A.enc key nonce plaintext

/-- `vault::decrypt`: length guard (salt + nonce + 16-byte minimum tag),
split the blob, re-derive the key, decrypt.  `none` is the error return. -/
def decrypt (A : AEAD) (kdf : List Nat → List Nat → List Nat)
    (data passphrase : List Nat) : Option (List Nat) :=
  if data.length < SALT_LEN + NONCE_LEN + 16 then none
  else
    let salt := data.take SALT_LEN
    let nonce_bytes := (data.drop SALT_LEN).take NONCE_LEN
    let ciphertext := data.drop (SALT_LEN + NONCE_LEN)
    A.dec (kdf passphrase salt) nonce_bytes ciphertext

/-- A concrete AEAD instance used to witness the vault theorems: plaintext
followed by a 16-byte tag of zeros; `dec` strips and accepts it. -/
def padAEAD : AEAD :=
  { enc := fun _k _n p => p ++ List.replicate 16 0,
    dec := fun _k _n d =>
      if 16 ≤ d.length then some (d.take (d.length - 16)) else none }

/-- A concrete deterministic KDF used to witness the vault theorems. -/
def concatKdf (passphrase salt : List Nat) : List Nat :=
  passphrase ++ salt

-- ── Credential store queries (src/keyvault-package/src/vault/store.rs) ──

/-- A row of the `keys` table, with the columns the `get_active_keys` query
consults (the blob, timestamps and notes columns never enter the WHERE
clause).  `role` and `status` are the TEXT values written by `add_key` /
`update_key_status`: "orchestrator" / "worker" / "spare" and "active" /
"rate_limited" / "quarantined" / "disabled". -/
structure KeyRow where
  id : String
  provider : String
  role : String
  status : String
deriving DecidableEq, Repr

/-- `KeyStore::get_active_keys`: `SELECT id FROM keys WHERE provider = ?1 AND
status = 'active' AND role != 'orchestrator'`. -/
def get_active_keys (rows : List KeyRow) (provider : String) : List String :=
  (rows.filter (fun r =>
    r.provider == provider && r.status == "active"
      && r.role != "orchestrator")).map KeyRow.id

/-- The spec's wording of `list_active_workers`: credentials whose role is
worker (for comparison with `get_active_keys`, which the source implements
with `role != 'orchestrator'`). -/
def list_active_workers_spec (rows : List KeyRow) (provider : String) :
    List String :=
  (rows.filter (fun r =>
    r.provider == provider && r.status == "active"
      && r.role == "worker")).map KeyRow.id

/-- An active spare credential (role neither worker nor orchestrator). -/
def spareRow : KeyRow :=
  { id := "k1", provider := "google", role := "spare", status := "active" }

-- ── Discovery scan status update (src/keyvault/src/discovery/poller.rs) ─

/-- `KeyStatus` from store.rs. -/
inductive KeyStatus
  | Active
  | RateLimited
  | Quarantined
  | Disabled
deriving DecidableEq, Repr

/-- The probe fields `run_full_scan` consults (`KeyHealth` in adapters):
`quota_remaining_pct` is an `f32` in the source, compared only against the
exactly representable `0.0`; it is embedded as a rational. -/
structure KeyHealth where
  valid : Bool
  quota_remaining_pct : Option ℚ
deriving DecidableEq, Repr

/-- A credential as seen by one iteration of the `run_full_scan` loop. -/
structure ScanEntry where
  id : String
  provider : String
  status : KeyStatus
deriving DecidableEq, Repr

/-- The status a credential holds after one `run_full_scan` iteration.
`adapterPresent`: an adapter is registered for the provider (otherwise the
key is skipped).  `decryptInnerOk`: the stored blob decrypts; the store's
`decrypt_key` additionally selects only rows with `status = 'active'`, so
any non-active credential fails decryption and is skipped with its status
untouched.  Otherwise: invalid probe quarantines, zero remaining quota
rate-limits, and a previously rate-limited credential is re-activated. -/
def scan_status_update (entry : ScanEntry) (adapterPresent : Bool)
    (decryptInnerOk : Bool) (health : KeyHealth) : KeyStatus :=
  if adapterPresent = false then entry.status
  else if ¬(entry.status = KeyStatus.Active ∧ decryptInnerOk = true) then
    entry.status
  else if health.valid = false then KeyStatus.Quarantined
  else if health.quota_remaining_pct = some 0 then KeyStatus.RateLimited
  else if entry.status = KeyStatus.RateLimited then KeyStatus.Active
  else entry.status

-- ── Scheduler (src/keyvault/src/pool/mod.rs, src/keyvault/src/pool/swarm.rs)

/-- `GenerateResponse` (adapters): the fields the scheduler touches. -/
structure GenResp where
  text : String
  key_id : String
  input_tokens : Nat
  output_tokens : Nat
  latency_ms : Nat
deriving DecidableEq, Repr

/-- Outcome of one `adapter.generate` invocation (the adapter is an external
collaborator; each dispatch is resolved by an oracle indexed by the
invocation counter). -/
inductive GenOutcome
  | ok (resp : GenResp)
  | err (msg : String)
deriving DecidableEq, Repr

/-- Rust `&s[..s.len().min(n)]` modelled on characters. -/
def truncateChars (n : Nat) (s : String) : String :=
  String.mk (s.toList.take n)

/-- A row appended to `usage_log` by `KeyStore::record_usage` (the columns a
claim consults). -/
structure UsageRecord where
  key_id : String
  model : String
  input_tokens : Nat
  output_tokens : Nat
  status : String
  error_message : Option String
deriving DecidableEq, Repr

/-- The scheduler's rate-exhaustion sniff: error text contains "429",
"RESOURCE_EXHAUSTED" or "rate". -/
def isRateLimitErr (s : String) : Bool :=
  containsSub s "429" || containsSub s "RESOURCE_EXHAUSTED"
    || containsSub s "rate"

/-- The usage row written on a successful generation. -/
def successRecord (key model : String) (r : GenResp) : UsageRecord :=
  { key_id := key, model := model, input_tokens := r.input_tokens,
    output_tokens := r.output_tokens, status := "success",
    error_message := none }

/-- The usage row written on a failed generation: zero tokens, error text
truncated to 500. -/
def errorRecord (key model msg : String) : UsageRecord :=
  { key_id := key, model := model, input_tokens := 0, output_tokens := 0,
    status := "error", error_message := some (truncateChars 500 msg) }

/-- Everything one `PoolManager::generate` call does that a claim observes:
the returned response (`none` both for the no-keys bail-out and for the
exhausted-pass bail-out), the usage rows written, the credentials marked
rate-limited, the rate-tracker registrations, and the number of
`adapter.generate` invocations. -/
structure GenTrace where
  result : Option GenResp
  usage : List UsageRecord
  rate_limited : List String
  tracked : List (String × String)
  calls : Nat
deriving DecidableEq, Repr

/-- The round-robin attempt loop of `PoolManager::generate`.  `rem` is the
number of attempts left (the loop runs `active_keys.len()` times), `attempt`
the loop counter; the key index is `(counter0 + attempt) % total`.  A failed
decryption skips the key with nothing recorded; otherwise the attempt is
registered in the tracker and the adapter invoked: on success one success
row is written and the loop returns, on error one zero-token error row is
written, the key is marked rate-limited when the text matches the sniff,
and the loop continues with the next candidate. -/
def genAux (keys : List String) (decOk : String → Bool)
    (oracle : Nat → GenOutcome) (model : String) (counter0 : Nat) :
    Nat → Nat → GenTrace
  | 0, _ =>
    { result := none, usage := [], rate_limited := [], tracked := [], calls := 0 }
  | rem + 1, attempt =>
    let total := keys.length
    let idx := (counter0 + attempt) % total
    let key := keys.getD idx ""
    if decOk key = false then
      genAux keys decOk oracle model counter0 rem (attempt + 1)
    else
      match oracle attempt with
      | .ok r =>
        { result := some { r with key_id := key },
          usage := [successRecord key model r],
          rate_limited := [], tracked := [(key, model)], calls := 1 }
      | .err m =>
        let rest := genAux keys decOk oracle model counter0 rem (attempt + 1)
        { result := rest.result,
          usage := errorRecord key model m :: rest.usage,
          rate_limited :=
            (if isRateLimitErr m then [key] else []) ++ rest.rate_limited,
          tracked := (key, model) :: rest.tracked,
          calls := rest.calls + 1 }

/-- `PoolManager::generate` for one provider: bail out on an empty key list,
otherwise one full round-robin pass over the active keys. -/
def PoolManager_generate (keys : List String) (decOk : String → Bool)
    (oracle : Nat → GenOutcome) (model : String) (counter0 : Nat) : GenTrace :=
  if keys.length = 0 then
    { result := none, usage := [], rate_limited := [], tracked := [], calls := 0 }
  else
    genAux keys decOk oracle model counter0 keys.length 0

/-- `swarm::MAX_RETRIES`. -/
def MAX_RETRIES : Nat := 3

/-- `swarm::obfuscate_key`: first four and last four characters. -/
def obfuscate_key (key_id : String) : String :=
  if key_id.length ≤ 8 then String.mk (key_id.toList.take 4) ++ "..."
  else
    String.mk (key_id.toList.take 4) ++ "..."
      ++ String.mk (key_id.toList.drop (key_id.length - 4))

/-- `swarm::select_key`: least-loaded admissible key under the model's
free-tier limits, then decrypt; a decryption failure yields `none` exactly
like capacity exhaustion. -/
def select_key (keys : List String) (model : ModelSpec) (t : RateTracker)
    (decOk : String → Bool) (now day : Nat) : Option String :=
  match least_loaded_key t keys model.id model.free_rpm model.free_rpd now day with
  | none => none
  | some k => if decOk k then some k else none

/-- `SwarmResult`: the fields a claim observes (`label` and `complexity` are
pass-through data copied from the task and are omitted). -/
structure SwarmRes where
  model : String
  key_id : String
  ok : Bool
  text : Option String
  error : Option String
  input_tokens : Nat
  output_tokens : Nat
  latency_ms : Nat
  retries : Nat
deriving DecidableEq, Repr

/-- Everything one `execute_with_failover` call does that a claim observes. -/
structure SwarmTrace where
  res : SwarmRes
  usage : List UsageRecord
  rate_limited : List String
  tracker : RateTracker
  calls : Nat
deriving DecidableEq, Repr

/-- The retry loop of `execute_with_failover`.  Each iteration: pick the
least-loaded admissible key; if none, cascade to the fallback model
(counting a retry, and formatting the cascade message exactly as the source
does — both placeholders print the fallback id because `current_model` is
reassigned first) or fail when the cascade is exhausted.  With a key:
register the attempt in the tracker, then invoke the adapter; success
returns with one success row; a rate-limit error writes one zero-token
error row, marks the key and loops; any other error writes one zero-token
error row and returns immediately. -/
def execAux (keys : List String) (decOk : String → Bool)
    (adapterPresent : String → Bool) (oracle : Nat → GenOutcome)
    (now day : Nat) :
    Nat → ModelSpec → Nat → String → RateTracker → Nat → SwarmTrace
  | 0, model, retries, lastErr, t, _inv =>
    { res := { model := model.id, key_id := "exhausted", ok := false,
               text := none,
               error := some ("Exhausted 3 retries. Last error: "
                 ++ truncateChars 200 lastErr),
               input_tokens := 0, output_tokens := 0, latency_ms := 0,
               retries := retries },
      usage := [], rate_limited := [], tracker := t, calls := 0 }
  | fuel + 1, model, retries, lastErr, t, inv =>
    match select_key keys model t decOk now day with
    | none =>
      match fallback_model model.id with
      | some fb =>
        execAux keys decOk adapterPresent oracle now day fuel fb (retries + 1)
          ("All keys at capacity for " ++ fb.id ++ ", cascading to " ++ fb.id)
          t inv
      | none =>
        { res := { model := model.id, key_id := "none", ok := false,
                   text := none,
                   error := some
                     ("All keys at capacity, no fallback available. Last: "
                       ++ lastErr),
                   input_tokens := 0, output_tokens := 0, latency_ms := 0,
                   retries := retries },
          usage := [], rate_limited := [], tracker := t, calls := 0 }
    | some key =>
      let t1 := record_request t key model.id now day
      if adapterPresent model.provider = false then
        { res := { model := model.id, key_id := obfuscate_key key, ok := false,
                   text := none,
                   error := some ("No adapter for " ++ model.provider),
                   input_tokens := 0, output_tokens := 0, latency_ms := 0,
                   retries := retries },
          usage := [], rate_limited := [], tracker := t1, calls := 0 }
      else
        match oracle inv with
        | .ok r =>
          { res := { model := model.id, key_id := obfuscate_key key, ok := true,
                     text := some r.text, error := none,
                     input_tokens := r.input_tokens,
                     output_tokens := r.output_tokens,
                     latency_ms := r.latency_ms, retries := retries },
            usage := [successRecord key model.id r],
            rate_limited := [], tracker := t1, calls := 1 }
        | .err m =>
          if isRateLimitErr m then
            let rest := execAux keys decOk adapterPresent oracle now day fuel
              model (retries + 1) m t1 (inv + 1)
            { res := rest.res,
              usage := errorRecord key model.id m :: rest.usage,
              rate_limited := key :: rest.rate_limited,
              tracker := rest.tracker, calls := rest.calls + 1 }
          else
            { res := { model := model.id, key_id := obfuscate_key key,
                       ok := false, text := none,
                       error := some (truncateChars 200 m),
                       input_tokens := 0, output_tokens := 0, latency_ms := 0,
                       retries := retries },
              usage := [errorRecord key model.id m],
              rate_limited := [], tracker := t1, calls := 1 }

/-- `swarm::execute_with_failover`: the retry loop entered with
`MAX_RETRIES` attempts, zero retries and an empty last error. -/
def execute_with_failover (keys : List String) (decOk : String → Bool)
    (adapterPresent : String → Bool) (oracle : Nat → GenOutcome)
    (now day : Nat) (initial_model : ModelSpec) (t : RateTracker) : SwarmTrace :=
  execAux keys decOk adapterPresent oracle now day MAX_RETRIES initial_model 0 "" t 0

-- ── Reference functions and concrete fixtures used by the theorems ──────

/-- Reference form of the least-loaded fold: first admissible candidate
achieving the minimum reported rpm (head preferred on ties). -/
def specLL (t : RateTracker) (model_id : String) (max_rpm max_rpd now day : Nat) :
    List String → Option (String × Nat)
  | [] => none
  | k :: rest =>
    let r := check_capacity t k model_id max_rpm max_rpd now day
    if r.1 then
      match specLL t model_id max_rpm max_rpd now day rest with
      | none => some (k, r.2.1)
      | some (k', r') => if r.2.1 ≤ r' then some (k, r.2.1) else some (k', r')
    else specLL t model_id max_rpm max_rpd now day rest

/-- Merge an accumulated best with the best of a remaining segment,
preferring the accumulated one on ties (the fold replaces only on a
strictly smaller rpm). -/
def combineBest : Option (String × Nat) → Option (String × Nat) → Option (String × Nat)
  | b, none => b
  | none, some s => some s
  | some (kb, rb), some (ks, rs) => if rs < rb then some (ks, rs) else some (kb, rb)

/-- A tracker holding five recorded calls for ("k", "m") at instant 100 of
calendar day 0 (all within the last minute). -/
def t5 : RateTracker :=
  record_request (record_request (record_request (record_request
    (record_request [] "k" "m" 100 0) "k" "m" 100 0) "k" "m" 100 0)
    "k" "m" 100 0) "k" "m" 100 0

/-- A successful adapter response used in concrete runs. -/
def respA : GenResp :=
  { text := "done", key_id := "", input_tokens := 10, output_tokens := 20,
    latency_ms := 5 }

/-- Adapter oracle: first invocation fails with a rate-limit error text,
the second succeeds. -/
def oracleRateThenOk : Nat → GenOutcome :=
  fun i => if i = 0 then .err "429 Too Many Requests" else .ok respA

/-- Adapter oracle: first invocation fails with an error text carrying none
of the rate-exhaustion indicators, the second succeeds. -/
def oracleAuthThenOk : Nat → GenOutcome :=
  fun i => if i = 0 then .err "invalid api key" else .ok respA

/-- Adapter oracle that always fails with a non-rate-limit error text. -/
def oracleErrOnly : Nat → GenOutcome :=
  fun _ => .err "bad credentials"

-- ────────────────────────────────────────────────────────────────────────
-- Theorems
-- ────────────────────────────────────────────────────────────────────────

/-- C3: for every prompt P with complexity C = classify(P), the model spec
returned by select_model(C) has min_complexity ≤ C in the order
trivial < simple < medium < complex < expert. -/
theorem select_model_respects_min_complexity (P : String) :
    (select_model (classify P)).min_complexity ≤ classify P := by
  generalize classify P = c
  cases c <;> decide

/-- C9: whenever fallback_model on a cascade member returns a model, the
registry quality of the returned model is at least that of the current
model. -/
theorem fallback_quality_monotone (m : String) (hm : m ∈ cascade)
    (spec spec' : ModelSpec) (h : get_model m = some spec)
    (h' : fallback_model m = some spec') :
    spec.code_quality ≤ spec'.code_quality := by
  simp only [cascade, List.mem_cons, List.not_mem_nil, or_false] at hm
  rcases hm with rfl | rfl | rfl | rfl | rfl
  · rw [show get_model "gemini-2.5-flash-lite" = some m25flashLite from rfl] at h
    rw [show fallback_model "gemini-2.5-flash-lite" = some m25flash from rfl] at h'
    injection h with h; injection h' with h'
    subst h; subst h'; decide
  · rw [show get_model "gemini-2.5-flash" = some m25flash from rfl] at h
    rw [show fallback_model "gemini-2.5-flash" = some m3flash from rfl] at h'
    injection h with h; injection h' with h'
    subst h; subst h'; decide
  · rw [show get_model "gemini-3-flash-preview" = some m3flash from rfl] at h
    rw [show fallback_model "gemini-3-flash-preview" = some m25pro from rfl] at h'
    injection h with h; injection h' with h'
    subst h; subst h'; decide
  · rw [show get_model "gemini-2.5-pro" = some m25pro from rfl] at h
    rw [show fallback_model "gemini-2.5-pro" = some m3pro from rfl] at h'
    injection h with h; injection h' with h'
    subst h; subst h'; decide
  · rw [show fallback_model "gemini-3-pro-preview" = none from rfl] at h'
    exact absurd h' (by simp)

/-- Witness for C9 at the bottom of the cascade. -/
theorem fallback_quality_monotone_witness :
    m25flashLite.code_quality ≤ m25flash.code_quality :=
  fallback_quality_monotone "gemini-2.5-flash-lite" (by decide)
    m25flashLite m25flash rfl rfl

/-- C8 (code bug): a credential whose stored status is rate_limited is never
re-admitted by a scan, even when the probe would report it valid with full
quota, because the store's decrypt_key selects only rows with
status = 'active' and the scan skips a credential it cannot decrypt.  The
claim (and the source's own re-activation branch) say the status should
become active. -/
theorem scan_does_not_readmit_rate_limited :
    scan_status_update { id := "k1", provider := "google", status := .RateLimited }
      true true { valid := true, quota_remaining_pct := some 100 }
      = KeyStatus.RateLimited := rfl

/-- C7 (counterexample): an active credential with role spare and matching
provider is returned by get_active_keys although its role is not worker. -/
theorem get_active_keys_returns_spare :
    get_active_keys [spareRow] "google" = ["k1"]
      ∧ list_active_workers_spec [spareRow] "google" = []
      ∧ spareRow.role ≠ "worker" := by
  refine ⟨rfl, rfl, by decide⟩

/-- C7 (amended): get_active_keys returns exactly the identifiers of stored
credentials whose provider matches, whose status is active, and whose role
is not orchestrator (worker or spare). -/
theorem get_active_keys_mem (rows : List KeyRow) (p ident : String) :
    ident ∈ get_active_keys rows p ↔
      ∃ r ∈ rows, r.id = ident ∧ r.provider = p ∧ r.status = "active"
        ∧ r.role ≠ "orchestrator" := by
  simp only [get_active_keys, List.mem_map, List.mem_filter,
    Bool.and_eq_true, beq_iff_eq, bne_iff_ne]
  tauto

/-- C4 (counterexample): for a key with no recorded history and max_rpm = 0,
check_capacity admits although the reported current RPM (0) is not strictly
below max_rpm — the stated iff fails at this input. -/
theorem check_capacity_no_history_ignores_limits :
    (check_capacity [] "k" "m" 0 0 0 0).1 = true
      ∧ ¬(check_capacity [] "k" "m" 0 0 0 0).2.1 < 0 := by
  exact ⟨rfl, by decide⟩

/-- C4 (amended): for a key with recorded history, check_capacity admits iff
the reported pruned RPM is strictly below max_rpm and the reported RPD is
strictly below max_rpd; a key with no history returns (true, 0, 0)
unconditionally, even when a limit is zero. -/
theorem check_capacity_spec (t : RateTracker) (k m : String)
    (max_rpm max_rpd now day : Nat) :
    (List.lookup (k, m) t = none →
      check_capacity t k m max_rpm max_rpd now day = (true, 0, 0)) ∧
    (∀ w, List.lookup (k, m) t = some w →
      ((check_capacity t k m max_rpm max_rpd now day).1 = true ↔
        (check_capacity t k m max_rpm max_rpd now day).2.1 < max_rpm ∧
        (check_capacity t k m max_rpm max_rpd now day).2.2 < max_rpd)) := by
  constructor
  · intro h; simp [check_capacity, h]
  · intro w h; simp [check_capacity, h]

/-- Witness for C4 (amended) on the empty tracker. -/
theorem check_capacity_spec_witness :
    check_capacity [] "k" "m" 3 3 0 0 = (true, 0, 0) :=
  (check_capacity_spec [] "k" "m" 3 3 0 0).1 rfl

/-- The witness AEAD verifies its own framing: stripping the 16-byte tag
recovers the plaintext. -/
theorem padAEAD_roundtrip : ∀ k n p, padAEAD.dec k n (padAEAD.enc k n p) = some p := by
  intro k n p
  simp only [padAEAD]
  rw [if_pos (by simp)]
  have hl : (p ++ List.replicate 16 0).length - 16 = p.length := by simp
  rw [hl]
  exact congrArg some (List.take_left p (List.replicate 16 0))

/-- The witness AEAD appends a 16-byte tag, meeting the minimum length the
decrypt guard assumes. -/
theorem padAEAD_taglen : ∀ k n p, 16 ≤ (padAEAD.enc k n p).length := by
  intro k n p
  show 16 ≤ (p ++ List.replicate 16 0).length
  simp

/-- C6: for every plaintext, passphrase, 32-byte salt and 12-byte nonce,
decrypting the blob produced by encrypt with the same passphrase returns the
plaintext.  The AEAD cipher and the KDF are external crates (spec §4.A):
the theorem holds for every deterministic KDF and every AEAD meeting the
spec's contract (decryption inverts encryption under the same key and
nonce; ciphertexts carry at least the 16-byte tag). -/
theorem encrypt_decrypt_roundtrip (A : AEAD)
    (kdf : List Nat → List Nat → List Nat) (salt nonce P pw : List Nat)
    (hs : salt.length = SALT_LEN) (hn : nonce.length = NONCE_LEN)
    (hrt : ∀ k n p, A.dec k n (A.enc k n p) = some p)
    (htag : ∀ k n p, 16 ≤ (A.enc k n p).length) :
    decrypt A kdf (encrypt A kdf salt nonce P pw) pw = some P := by
  have hdata : encrypt A kdf salt nonce P pw
      = salt ++ (nonce ++ A.enc (kdf pw salt) nonce P) := by
    simp [encrypt, List.append_assoc]
  set ct := A.enc (kdf pw salt) nonce P with hct
  have htl : 16 ≤ ct.length := htag _ _ _
  have hlen : (salt ++ (nonce ++ ct)).length = 44 + ct.length := by
    simp [List.length_append, hs, hn, SALT_LEN, NONCE_LEN]
    omega
  rw [hdata]
  unfold decrypt
  rw [if_neg (by rw [hlen]; simp [SALT_LEN, NONCE_LEN]; omega)]
  have h1 : (salt ++ (nonce ++ ct)).take SALT_LEN = salt := by
    rw [← hs]; exact List.take_left _ _
  have h2 : ((salt ++ (nonce ++ ct)).drop SALT_LEN).take NONCE_LEN = nonce := by
    rw [← hs, List.drop_left, ← hn]; exact List.take_left _ _
  have h3 : (salt ++ (nonce ++ ct)).drop (SALT_LEN + NONCE_LEN) = ct := by
    rw [← List.append_assoc]
    have hsn : (salt ++ nonce).length = SALT_LEN + NONCE_LEN := by
      rw [List.length_append, hs, hn]
    rw [← hsn]
    exact List.drop_left _ _
  show A.dec (kdf pw ((salt ++ (nonce ++ ct)).take SALT_LEN))
      (((salt ++ (nonce ++ ct)).drop SALT_LEN).take NONCE_LEN)
      ((salt ++ (nonce ++ ct)).drop (SALT_LEN + NONCE_LEN)) = some P
  rw [h1, h2, h3]
  exact hrt _ _ _

/-- Witness for C6: a concrete AEAD and KDF, a concrete 32-byte salt,
12-byte nonce, plaintext and passphrase round-trip. -/
theorem encrypt_decrypt_roundtrip_witness :
    decrypt padAEAD concatKdf
      (encrypt padAEAD concatKdf (List.replicate 32 0) (List.replicate 12 1)
        [3, 1, 4] [9]) [9] = some [3, 1, 4] :=
  encrypt_decrypt_roundtrip padAEAD concatKdf (List.replicate 32 0)
    (List.replicate 12 1) [3, 1, 4] [9] (by simp [SALT_LEN])
    (by simp [NONCE_LEN]) padAEAD_roundtrip padAEAD_taglen

/-- C10: decrypt is total.  Any input shorter than 60 bytes
(32-byte salt + 12-byte nonce + 16-byte minimal ciphertext-with-tag)
returns the error value; on longer inputs the salt, nonce and ciphertext
slices are exactly the in-bounds segments of lengths 32, 12 and
length − 44 ≥ 16, and decrypt reduces to the AEAD call on them. -/
theorem decrypt_total (A : AEAD) (kdf : List Nat → List Nat → List Nat)
    (data pw : List Nat) :
    (data.length < 60 → decrypt A kdf data pw = none) ∧
    (60 ≤ data.length →
      (data.take SALT_LEN).length = 32 ∧
      ((data.drop SALT_LEN).take NONCE_LEN).length = 12 ∧
      (data.drop (SALT_LEN + NONCE_LEN)).length = data.length - 44 ∧
      16 ≤ (data.drop (SALT_LEN + NONCE_LEN)).length ∧
      decrypt A kdf data pw =
        A.dec (kdf pw (data.take SALT_LEN))
          ((data.drop SALT_LEN).take NONCE_LEN)
          (data.drop (SALT_LEN + NONCE_LEN))) := by
  constructor
  · intro h
    unfold decrypt
    rw [if_pos (by simp [SALT_LEN, NONCE_LEN]; omega)]
  · intro h
    refine ⟨?_, ?_, ?_, ?_, ?_⟩
    · simp [SALT_LEN, List.length_take]; omega
    · simp [SALT_LEN, NONCE_LEN, List.length_take, List.length_drop]; omega
    · simp [SALT_LEN, NONCE_LEN, List.length_drop]
    · simp [SALT_LEN, NONCE_LEN, List.length_drop]; omega
    · unfold decrypt
      rw [if_neg (by simp [SALT_LEN, NONCE_LEN]; omega)]

/-- Witness for C10 on a 10-byte input. -/
theorem decrypt_total_witness :
    decrypt padAEAD concatKdf (List.replicate 10 0) [] = none :=
  (decrypt_total padAEAD concatKdf (List.replicate 10 0) []).1 (by simp)

/-- Invariant of the round-robin attempt loop: one usage row per adapter
invocation, and error rows carry zero tokens. -/
theorem genAux_usage_invariant (keys : List String) (decOk : String → Bool)
    (oracle : Nat → GenOutcome) (model : String) (c0 : Nat) :
    ∀ rem attempt,
      ((genAux keys decOk oracle model c0 rem attempt).usage.length =
        (genAux keys decOk oracle model c0 rem attempt).calls) ∧
      ∀ r ∈ (genAux keys decOk oracle model c0 rem attempt).usage,
        r.status = "error" → r.input_tokens = 0 ∧ r.output_tokens = 0 := by
  intro rem
  induction rem with
  | zero =>
    intro attempt
    simp [genAux]
  | succ n ih =>
    intro attempt
    cases hdec : decOk (keys.getD ((c0 + attempt) % keys.length) "") with
    | false =>
      simp only [genAux]
      rw [hdec, if_pos rfl]
      exact ih (attempt + 1)
    | true =>
      simp only [genAux]
      rw [hdec, if_neg (by simp)]
      cases ho : oracle attempt with
      | ok r =>
        simp only [ho]
        constructor
        · rfl
        · intro u hu hst
          rw [List.mem_singleton.mp hu] at hst
          exact absurd hst (by simp [successRecord])
      | err m =>
        simp only [ho]
        constructor
        · rw [List.length_cons, (ih (attempt + 1)).1]
        · intro u hu hst
          rcases List.mem_cons.mp hu with h | h
          · subst h; exact ⟨rfl, rfl⟩
          · exact (ih (attempt + 1)).2 u h hst

/-- Invariant of the swarm retry loop: one usage row per adapter invocation,
and error rows carry zero tokens. -/
theorem execAux_usage_invariant (keys : List String) (decOk : String → Bool)
    (ap : String → Bool) (oracle : Nat → GenOutcome) (now day : Nat) :
    ∀ fuel model retries lastErr t inv,
      ((execAux keys decOk ap oracle now day fuel model retries lastErr t inv).usage.length =
        (execAux keys decOk ap oracle now day fuel model retries lastErr t inv).calls) ∧
      ∀ r ∈ (execAux keys decOk ap oracle now day fuel model retries lastErr t inv).usage,
        r.status = "error" → r.input_tokens = 0 ∧ r.output_tokens = 0 := by
  intro fuel
  induction fuel with
  | zero =>
    intro model retries lastErr t inv
    simp [execAux]
  | succ n ih =>
    intro model retries lastErr t inv
    simp only [execAux]
    cases hsel : select_key keys model t decOk now day with
    | none =>
      simp only [hsel]
      cases hfb : fallback_model model.id with
      | some fb =>
        simp only [hfb]
        exact ih fb (retries + 1)
          ("All keys at capacity for " ++ fb.id ++ ", cascading to " ++ fb.id)
          t inv
      | none =>
        simp only [hfb]
        simp
    | some key =>
      simp only [hsel]
      cases hap : ap model.provider with
      | false =>
        rw [if_pos rfl]
        simp
      | true =>
        rw [if_neg (by simp)]
        cases ho : oracle inv with
        | ok r =>
          simp only [ho]
          constructor
          · rfl
          · intro u hu hst
            rw [List.mem_singleton.mp hu] at hst
            exact absurd hst (by simp [successRecord])
        | err m =>
          simp only [ho]
          cases hrl : isRateLimitErr m with
          | true =>
            rw [if_pos rfl]
            constructor
            · rw [List.length_cons, (ih model (retries + 1) m
                (record_request t key model.id now day) (inv + 1)).1]
            · intro u hu hst
              rcases List.mem_cons.mp hu with h | h
              · subst h; exact ⟨rfl, rfl⟩
              · exact (ih model (retries + 1) m
                  (record_request t key model.id now day) (inv + 1)).2 u h hst
          | false =>
            rw [if_neg (by simp)]
            constructor
            · rfl
            · intro u hu hst
              rw [List.mem_singleton.mp hu]
              exact ⟨rfl, rfl⟩

/-- C1 (counterexample): one task through PoolManager::generate whose first
attempt fails with a rate-limit error and whose second attempt succeeds
writes two usage records, not exactly one. -/
theorem generate_task_two_usage_records :
    (PoolManager_generate ["k1", "k2"] (fun _ => true) oracleRateThenOk "m" 0).usage
      = [errorRecord "k1" "m" "429 Too Many Requests", successRecord "k2" "m" respA]
    ∧ (PoolManager_generate ["k1", "k2"] (fun _ => true) oracleRateThenOk "m" 0).result
      ≠ none := by
  exact ⟨rfl, by decide⟩

/-- C1 (amended): in both PoolManager::generate and execute_with_failover a
task writes exactly one usage record per adapter invocation — several when
the task retries, none when it never reaches an adapter — and every usage
record with status "error" has zero input and output tokens. -/
theorem usage_record_per_adapter_call
    (keys : List String) (decOk : String → Bool) (oracle : Nat → GenOutcome)
    (model : String) (c0 : Nat) (adapterPresent : String → Bool)
    (now day : Nat) (initial_model : ModelSpec) (t : RateTracker) :
    ((PoolManager_generate keys decOk oracle model c0).usage.length =
        (PoolManager_generate keys decOk oracle model c0).calls ∧
      ∀ r ∈ (PoolManager_generate keys decOk oracle model c0).usage,
        r.status = "error" → r.input_tokens = 0 ∧ r.output_tokens = 0) ∧
    ((execute_with_failover keys decOk adapterPresent oracle now day
        initial_model t).usage.length =
      (execute_with_failover keys decOk adapterPresent oracle now day
        initial_model t).calls ∧
      ∀ r ∈ (execute_with_failover keys decOk adapterPresent oracle now day
        initial_model t).usage,
        r.status = "error" → r.input_tokens = 0 ∧ r.output_tokens = 0) := by
  constructor
  · unfold PoolManager_generate
    by_cases h : keys.length = 0
    · rw [if_pos h]
      simp
    · rw [if_neg h]
      exact genAux_usage_invariant keys decOk oracle model c0 keys.length 0
  · exact execAux_usage_invariant keys decOk adapterPresent oracle now day
      MAX_RETRIES initial_model 0 "" t 0

/-- Witness for C1 (amended): the error row of a concrete failed attempt has
zero tokens. -/
theorem usage_record_per_adapter_call_witness :
    (errorRecord "k1" "m" "429 Too Many Requests").input_tokens = 0 ∧
    (errorRecord "k1" "m" "429 Too Many Requests").output_tokens = 0 :=
  (usage_record_per_adapter_call ["k1", "k2"] (fun _ => true) oracleRateThenOk
      "m" 0 (fun _ => true) 0 0 m3pro []).1.2
    (errorRecord "k1" "m" "429 Too Many Requests") (by decide) rfl

/-- C2 (counterexample): in PoolManager::generate an adapter error carrying
none of the rate-exhaustion indicators does not terminate the task — the
pass continues and a second attempt on another credential succeeds. -/
theorem generate_retries_after_non_rate_limit_error :
    isRateLimitErr "invalid api key" = false
    ∧ (PoolManager_generate ["k1", "k2"] (fun _ => true) oracleAuthThenOk "m" 0).calls = 2
    ∧ (PoolManager_generate ["k1", "k2"] (fun _ => true) oracleAuthThenOk "m" 0).result
        = some { respA with key_id := "k2" } := by
  exact ⟨rfl, rfl, rfl⟩

/-- C2 (amended): a non-rate-limit adapter error terminates the task
immediately only in execute_with_failover — it returns ok = false with that
error after exactly one usage row, touching no credential status; in
PoolManager::generate the same attempt records its error row and the pass
continues to the next credential (the result is the continuation's, the
call count grows by one, and no credential is marked rate-limited). -/
theorem non_rate_limit_error_termination
    (keys : List String) (decOk ap : String → Bool) (oracle : Nat → GenOutcome)
    (now day : Nat) :
    (∀ fuel (model : ModelSpec) retries lastErr t inv key m,
      select_key keys model t decOk now day = some key →
      ap model.provider = true →
      oracle inv = GenOutcome.err m →
      isRateLimitErr m = false →
      execAux keys decOk ap oracle now day (fuel + 1) model retries lastErr t inv =
        { res := { model := model.id, key_id := obfuscate_key key, ok := false,
                   text := none, error := some (truncateChars 200 m),
                   input_tokens := 0, output_tokens := 0, latency_ms := 0,
                   retries := retries },
          usage := [errorRecord key model.id m], rate_limited := [],
          tracker := record_request t key model.id now day, calls := 1 }) ∧
    (∀ gmodel c0 rem attempt m,
      decOk (keys.getD ((c0 + attempt) % keys.length) "") = true →
      oracle attempt = GenOutcome.err m →
      isRateLimitErr m = false →
      (genAux keys decOk oracle gmodel c0 (rem + 1) attempt).result =
        (genAux keys decOk oracle gmodel c0 rem (attempt + 1)).result ∧
      (genAux keys decOk oracle gmodel c0 (rem + 1) attempt).calls =
        (genAux keys decOk oracle gmodel c0 rem (attempt + 1)).calls + 1 ∧
      (genAux keys decOk oracle gmodel c0 (rem + 1) attempt).rate_limited =
        (genAux keys decOk oracle gmodel c0 rem (attempt + 1)).rate_limited) := by
  constructor
  · intro fuel model retries lastErr t inv key m hsel hap ho hnr
    simp only [execAux, hsel, hap, ho, hnr]
    rw [if_neg (by simp), if_neg (by simp)]
  · intro gmodel c0 rem attempt m hdec ho hnr
    simp only [genAux, hdec, ho, hnr]
    rw [if_neg (by simp)]
    refine ⟨rfl, rfl, ?_⟩
    simp

/-- Witness for C2 (amended): a concrete swarm attempt with an admissible
credential and a non-rate-limit adapter error returns immediately. -/
theorem non_rate_limit_error_termination_witness :
    execAux ["k"] (fun _ => true) (fun _ => true) oracleErrOnly 0 0 (2 + 1)
      m3pro 0 "" [] 0 =
      { res := { model := m3pro.id, key_id := obfuscate_key "k", ok := false,
                 text := none,
                 error := some (truncateChars 200 "bad credentials"),
                 input_tokens := 0, output_tokens := 0, latency_ms := 0,
                 retries := 0 },
        usage := [errorRecord "k" m3pro.id "bad credentials"],
        rate_limited := [],
        tracker := record_request [] "k" m3pro.id 0 0, calls := 1 } :=
  (non_rate_limit_error_termination ["k"] (fun _ => true) (fun _ => true)
      oracleErrOnly 0 0).1 2 m3pro 0 "" [] 0 "k" "bad credentials"
    (by decide) rfl rfl (by decide)

/-- The least-loaded fold equals its reference: folding with an accumulated
best is merging that best with the best of the remaining segment. -/
theorem llGo_eq_combineBest (t : RateTracker) (mid : String) (a b now day : Nat) :
    ∀ (l : List String) (best : Option (String × Nat)),
      llGo t mid a b now day best l =
        combineBest best (specLL t mid a b now day l) := by
  intro l
  induction l with
  | nil =>
    intro best
    cases best with
    | none => rfl
    | some p => rfl
  | cons k rest ih =>
    intro best
    simp only [llGo, specLL]
    cases hadm : (check_capacity t k mid a b now day).1 with
    | false =>
      rw [if_pos (by simp), if_neg (by simp)]
      exact ih best
    | true =>
      rw [if_neg (by simp), if_pos rfl]
      cases best with
      | none =>
        cases hs : specLL t mid a b now day rest with
        | none =>
          dsimp only
          simp only [ih, hs, combineBest]
        | some p =>
          obtain ⟨k', r'⟩ := p
          dsimp only
          split_ifs <;> simp only [ih, hs, combineBest] <;>
            first
              | rfl
              | (exfalso; omega)
              | (split_ifs <;> first | rfl | (exfalso; omega))
      | some p =>
        obtain ⟨kb, rb⟩ := p
        cases hs : specLL t mid a b now day rest with
        | none =>
          dsimp only
          split_ifs <;> simp only [ih, hs, combineBest] <;>
            first
              | rfl
              | (exfalso; omega)
              | (split_ifs <;> first | rfl | (exfalso; omega))
        | some p' =>
          obtain ⟨k', r'⟩ := p'
          dsimp only
          split_ifs <;> simp only [ih, hs, combineBest] <;>
            first
              | rfl
              | (exfalso; omega)
              | (split_ifs <;> first | rfl | (exfalso; omega))

/-- Properties of the least-loaded reference: a `none` result means no
candidate is admissible; a `some` result is an admissible candidate whose
reported rpm is minimal among admissible candidates, and every admissible
candidate strictly before it in the list has a strictly larger rpm. -/
theorem specLL_props (t : RateTracker) (mid : String) (a b now day : Nat) :
    ∀ l : List String,
      (specLL t mid a b now day l = none →
        ∀ k ∈ l, (check_capacity t k mid a b now day).1 = false) ∧
      (∀ k r, specLL t mid a b now day l = some (k, r) →
        r = (check_capacity t k mid a b now day).2.1 ∧
        (check_capacity t k mid a b now day).1 = true ∧
        (∀ k' ∈ l, (check_capacity t k' mid a b now day).1 = true →
          r ≤ (check_capacity t k' mid a b now day).2.1) ∧
        ∃ pre post, l = pre ++ k :: post ∧
          ∀ k' ∈ pre, (check_capacity t k' mid a b now day).1 = true →
            r < (check_capacity t k' mid a b now day).2.1) := by
  intro l
  induction l with
  | nil =>
    constructor
    · intro _ k hk
      exact absurd hk (List.not_mem_nil k)
    · intro k r h
      exact absurd h (by simp [specLL])
  | cons k0 rest ih =>
    constructor
    · intro hnone k hk
      simp only [specLL] at hnone
      cases hadm : (check_capacity t k0 mid a b now day).1 with
      | true =>
        rw [hadm, if_pos rfl] at hnone
        exfalso
        cases hs : specLL t mid a b now day rest with
        | none => rw [hs] at hnone; exact absurd hnone (by simp)
        | some p =>
          obtain ⟨k', r'⟩ := p
          rw [hs] at hnone
          dsimp only at hnone
          split_ifs at hnone <;> simp at hnone
      | false =>
        rw [hadm, if_neg (by simp)] at hnone
        rcases List.mem_cons.mp hk with rfl | hk'
        · exact hadm
        · exact ih.1 hnone k hk'
    · intro k r hsome
      simp only [specLL] at hsome
      cases hadm : (check_capacity t k0 mid a b now day).1 with
      | false =>
        rw [hadm, if_neg (by simp)] at hsome
        obtain ⟨hr, hadm', hmin, pre, post, hsplit, hfirst⟩ := ih.2 k r hsome
        refine ⟨hr, hadm', ?_, k0 :: pre, post, by rw [hsplit]; rfl, ?_⟩
        · intro k' hk' ha'
          rcases List.mem_cons.mp hk' with rfl | hk''
          · rw [hadm] at ha'; exact absurd ha' (by simp)
          · exact hmin k' hk'' ha'
        · intro k' hk' ha'
          rcases List.mem_cons.mp hk' with rfl | hk''
          · rw [hadm] at ha'; exact absurd ha' (by simp)
          · exact hfirst k' hk'' ha'
      | true =>
        rw [hadm, if_pos rfl] at hsome
        cases hs : specLL t mid a b now day rest with
        | none =>
          rw [hs] at hsome
          dsimp only at hsome
          injection hsome with hp
          rw [Prod.mk.injEq] at hp
          obtain ⟨hk, hr⟩ := hp
          subst hk
          refine ⟨hr.symm, hadm, ?_, [], rest, rfl, by simp⟩
          intro k' hk' ha'
          rcases List.mem_cons.mp hk' with rfl | hk''
          · rw [← hr]
          · exact absurd ha' (by rw [ih.1 hs k' hk'']; simp)
        | some p =>
          obtain ⟨k', r'⟩ := p
          rw [hs] at hsome
          dsimp only at hsome
          obtain ⟨hr', hadm', hmin', pre', post', hsplit', hfirst'⟩ :=
            ih.2 k' r' hs
          by_cases hle : (check_capacity t k0 mid a b now day).2.1 ≤ r'
          · rw [if_pos hle] at hsome
            injection hsome with hp
            rw [Prod.mk.injEq] at hp
            obtain ⟨hk, hr⟩ := hp
            subst hk
            refine ⟨hr.symm, hadm, ?_, [], rest, rfl, by simp⟩
            intro q hq ha'
            rcases List.mem_cons.mp hq with rfl | hq'
            · rw [← hr]
            · rw [← hr]
              exact le_trans hle (hr' ▸ hmin' q hq' ha')
          · rw [if_neg hle] at hsome
            injection hsome with hp
            rw [Prod.mk.injEq] at hp
            obtain ⟨hk, hr⟩ := hp
            subst hk
            subst hr
            refine ⟨hr', hadm', ?_, k0 :: pre', post', by rw [hsplit']; rfl, ?_⟩
            · intro q hq ha'
              rcases List.mem_cons.mp hq with rfl | hq'
              · omega
              · exact hmin' q hq' ha'
            · intro q hq ha'
              rcases List.mem_cons.mp hq with rfl | hq'
              · omega
              · exact hfirst' q hq' ha'

/-- C5: least_loaded_key returns `none` exactly when no candidate is
admissible; otherwise it returns an admissible candidate whose reported
(pruned) rpm is minimal, ties broken in favour of the candidate appearing
first in the list (every admissible candidate before it has a strictly
larger rpm).  In particular, after five recorded calls within the last
minute and a free RPM of 5, check_capacity reports (false, 5, _) and
least_loaded_key over that single candidate returns none. -/
theorem least_loaded_key_spec (t : RateTracker) (keys : List String)
    (mid : String) (a b now day : Nat) :
    (least_loaded_key t keys mid a b now day = none →
      ∀ k ∈ keys, (check_capacity t k mid a b now day).1 = false) ∧
    (∀ k, least_loaded_key t keys mid a b now day = some k →
      (check_capacity t k mid a b now day).1 = true ∧
      (∀ k' ∈ keys, (check_capacity t k' mid a b now day).1 = true →
        (check_capacity t k mid a b now day).2.1 ≤
          (check_capacity t k' mid a b now day).2.1) ∧
      ∃ pre post, keys = pre ++ k :: post ∧
        ∀ k' ∈ pre, (check_capacity t k' mid a b now day).1 = true →
          (check_capacity t k mid a b now day).2.1 <
            (check_capacity t k' mid a b now day).2.1) ∧
    (check_capacity t5 "k" "m" 5 1000000 100 0 = (false, 5, 5) ∧
      least_loaded_key t5 ["k"] "m" 5 1000000 100 0 = none) := by
  have hll : least_loaded_key t keys mid a b now day =
      (specLL t mid a b now day keys).map Prod.fst := by
    unfold least_loaded_key
    rw [llGo_eq_combineBest]
    cases hs : specLL t mid a b now day keys with
    | none => rfl
    | some p => obtain ⟨k1, r1⟩ := p; rfl
  refine ⟨?_, ?_, by decide, by decide⟩
  · intro hnone k hk
    rw [hll] at hnone
    cases hs : specLL t mid a b now day keys with
    | none => exact (specLL_props t mid a b now day keys).1 hs k hk
    | some p => rw [hs] at hnone; exact absurd hnone (by simp)
  · intro k hsome
    rw [hll] at hsome
    cases hs : specLL t mid a b now day keys with
    | none => rw [hs] at hsome; exact absurd hsome (by simp)
    | some p =>
      obtain ⟨k1, r1⟩ := p
      rw [hs] at hsome
      simp only [Option.map_some', Option.some.injEq] at hsome
      subst hsome
      obtain ⟨hr, hadm, hmin, pre, post, hsplit, hfirst⟩ :=
        (specLL_props t mid a b now day keys).2 k1 r1 hs
      refine ⟨hadm, ?_, pre, post, hsplit, ?_⟩
      · intro k' hk' ha'
        exact hr ▸ hmin k' hk' ha'
      · intro k' hk' ha'
        exact hr ▸ hfirst k' hk' ha'

/-- Witness for C5: applied to the five-call tracker with a single
candidate, the none branch yields that the candidate is inadmissible. -/
theorem least_loaded_key_spec_witness :
    (check_capacity t5 "k" "m" 5 1000000 100 0).1 = false :=
  (least_loaded_key_spec t5 ["k"] "m" 5 1000000 100 0).1 (by decide) "k"
    (by decide)

end OpenClaw
